import Mathlib

/-!
Verification development for the holoviews tutorial-notebook corpus.

The repository consists of three notebook documents:
* `examples/user_guide/Deploying_Bokeh_Apps.ipynb` (a deployment guide),
* the Columns tutorial notebook stored alongside it, and
* the texas choropleth example notebook.

Every code cell of the three notebooks is embedded below as a term of a
small Python statement/expression syntax (`PyExpr`/`PyStmt`), transcribed
statement by statement from the notebook JSON.  Markdown cells are kept as
positional `Cell.markdown` entries.  On top of the embedded corpus we
define decidable syntactic analyses (control-flow statements, function
definitions, import lists, external-input operations) and functional
models of the concrete computations the notebooks define
(`selected_info`, `animate_update`, the choropleth construction, and the
column-storage backends of the external library).
-/

set_option maxHeartbeats 1600000
set_option maxRecDepth 100000

/-- A Python expression as written in the notebooks' code cells.
Numeric literals are embedded exactly: `intLit n` is the integer literal
`n`, and `fltLit m d` is the decimal literal with mantissa `m` and `d`
digits after the point (so `fltLit 2 1` is `0.2`).  A keyword argument
`k=e` inside a call argument list is `kw k e`, and `**e` is `kwStar e`. -/
inductive PyExpr where
  | name (x : String)
  | strLit (s : String)
  | intLit (n : Int)
  | fltLit (mant : Int) (dec : Nat)
  | noneLit
  | boolLit (b : Bool)
  | attr (e : PyExpr) (field : String)
  | call (f : PyExpr) (args : List PyExpr)
  | kw (k : String) (e : PyExpr)
  | kwStar (e : PyExpr)
  | binop (op : String) (l r : PyExpr)
  | unop (op : String) (e : PyExpr)
  | subscript (e i : PyExpr)
  | sliceE (lo hi : Option PyExpr)
  | tupleLit (es : List PyExpr)
  | listLit (es : List PyExpr)
  | setLit (es : List PyExpr)
  | dictLit (keys vals : List PyExpr)
  | listComp (body : PyExpr) (vars : List String) (iter : PyExpr) (cond : Option PyExpr)
  | dictComp (key val : PyExpr) (vars : List String) (iter : PyExpr) (cond : Option PyExpr)
  deriving Repr

/-- A Python statement as written in the notebooks' code cells.
`imp m a` is `import m as a` (alias in `asName`); `impFrom m ns a` is `from m import ns as a`;
`magic` is an IPython magic line (`%...`/`%%...`); `printStmt` is the
Python-2 `print e` statement form.  The constructors `forStmt`,
`whileStmt`, `tryStmt` and `raiseStmt` are part of the statement syntax
so that their absence from the corpus is a checkable fact rather than a
modelling artifact. -/
inductive PyStmt where
  | imp (module : String) (asName : Option String)
  | impFrom (module : String) (names : List String) (asName : Option String)
  | assign (target : PyExpr) (rhs : PyExpr)
  | exprStmt (e : PyExpr)
  | fundecl (fname : String) (params : List String) (body : List PyStmt)
  | ifStmt (cond : PyExpr) (thn els : List PyStmt)
  | forStmt (vars : List String) (iter : PyExpr) (body : List PyStmt)
  | whileStmt (cond : PyExpr) (body : List PyStmt)
  | tryStmt (body handlers : List PyStmt)
  | raiseStmt (e : PyExpr)
  | ret (e : PyExpr)
  | printStmt (e : PyExpr)
  | magic (text : String)
  deriving Repr

/-- A notebook cell: prose markdown, or a code cell holding statements. -/
inductive Cell where
  | markdown
  | code (stmts : List PyStmt)
  deriving Repr

/-- A notebook document: its cells in order. -/
structure Notebook where
  cells : List Cell
  deriving Repr

/-! ### Notebook 1: `Deploying_Bokeh_Apps.ipynb`, deployment guide part.
Code cells are numbered by their position among the 59 cells. -/

/-- Cell 2: `import numpy as np` / `import holoviews as hv` / `hv.extension('bokeh')`. -/
def nb1cell2 : List PyStmt :=
  [.imp "numpy" (some "np"),
   .imp "holoviews" (some "hv"),
   .exprStmt (.call (.attr (.name "hv") "extension") [.strLit "bokeh"])]

/-- Cell 4: the linked-selection example defining `selected_info`. -/
def nb1cell4 : List PyStmt :=
  [.magic "%%opts Points [tools=[\x27box_select\x27, \x27lasso_select\x27]]",
   .assign (.name "points")
     (.call (.attr (.name "hv") "Points")
       [.call (.attr (.attr (.name "np") "random") "randn") [.intLit 1000, .intLit 2]]),
   .assign (.name "selection")
     (.call (.attr (.attr (.name "hv") "streams") "Selection1D") [.kw "source" (.name "points")]),
   .fundecl "selected_info" ["index"]
     [.assign (.name "arr")
        (.subscript (.call (.attr (.name "points") "array") []) (.name "index")),
      .ifStmt (.name "index")
        [.assign (.name "label")
           (.binop "%" (.strLit "Mean x, y: %.3f, %.3f")
             (.call (.name "tuple")
               [.call (.attr (.name "arr") "mean") [.kw "axis" (.intLit 0)]]))]
        [.assign (.name "label") (.strLit "No selection")],
      .ret (.call (.attr (.call (.attr (.name "points") "clone")
                      [.name "arr", .kw "label" (.name "label")]) "opts")
             [.kw "style" (.call (.name "dict") [.kw "color" (.strLit "red")])])],
   .assign (.name "layout")
     (.binop "+" (.name "points")
       (.call (.attr (.name "hv") "DynamicMap")
         [.name "selected_info", .kw "streams" (.listLit [.name "selection"])])),
   .exprStmt (.name "layout")]

/-- Cell 7: `renderer = hv.renderer('bokeh')` / `print(renderer)`. -/
def nb1cell7 : List PyStmt :=
  [.assign (.name "renderer") (.call (.attr (.name "hv") "renderer") [.strLit "bokeh"]),
   .exprStmt (.call (.name "print") [.name "renderer"])]

/-- Cell 10: `renderer = renderer.instance(mode='server')`. -/
def nb1cell10 : List PyStmt :=
  [.assign (.name "renderer")
     (.call (.attr (.name "renderer") "instance") [.kw "mode" (.strLit "server")])]

/-- Cell 14: `hvplot = renderer.get_plot(layout)` / `print(hvplot)`. -/
def nb1cell14 : List PyStmt :=
  [.assign (.name "hvplot") (.call (.attr (.name "renderer") "get_plot") [.name "layout"]),
   .exprStmt (.call (.name "print") [.name "hvplot"])]

/-- Cell 17: `hvplot.state`. -/
def nb1cell17 : List PyStmt :=
  [.exprStmt (.attr (.name "hvplot") "state")]

/-- Cell 20: `html = renderer.figure_data(hvplot)`. -/
def nb1cell20 : List PyStmt :=
  [.assign (.name "html") (.call (.attr (.name "renderer") "figure_data") [.name "hvplot"])]

/-- Cell 23: `renderer(layout)`. -/
def nb1cell23 : List PyStmt :=
  [.exprStmt (.call (.name "renderer") [.name "layout"])]

/-- Cell 26: `doc = renderer.server_doc(layout)` / `doc.title = 'HoloViews App'`. -/
def nb1cell26 : List PyStmt :=
  [.assign (.name "doc") (.call (.attr (.name "renderer") "server_doc") [.name "layout"]),
   .assign (.attr (.name "doc") "title") (.strLit "HoloViews App")]

/-- Cell 33: the sine `DynamicMap` app (`def sine(frequency, phase, amplitude)`). -/
def nb1cell33 : List PyStmt :=
  [.fundecl "sine" ["frequency", "phase", "amplitude"]
     [.assign (.name "xs")
        (.call (.attr (.name "np") "linspace")
          [.intLit 0, .binop "*" (.attr (.name "np") "pi") (.intLit 4)]),
      .ret (.call (.attr (.call (.attr (.name "hv") "Curve")
              [.tupleLit [.name "xs",
                 .binop "*"
                   (.call (.attr (.name "np") "sin")
                     [.binop "+" (.binop "*" (.name "frequency") (.name "xs")) (.name "phase")])
                   (.name "amplitude")]]) "opts")
             [.kw "plot" (.call (.name "dict") [.kw "width" (.intLit 800)])])],
   .assign (.name "ranges")
     (.call (.name "dict")
       [.kw "frequency" (.tupleLit [.intLit 1, .intLit 5]),
        .kw "phase" (.tupleLit [.unop "-" (.attr (.name "np") "pi"), .attr (.name "np") "pi"]),
        .kw "amplitude" (.tupleLit [.intLit (-2), .intLit 2]),
        .kw "y" (.tupleLit [.intLit (-2), .intLit 2])]),
   .assign (.name "dmap")
     (.call (.attr (.attr (.call (.attr (.name "hv") "DynamicMap")
               [.name "sine",
                .kw "kdims" (.listLit [.strLit "frequency", .strLit "phase", .strLit "amplitude"])])
             "redim") "range")
       [.kwStar (.name "ranges")]),
   .assign (.name "app") (.call (.attr (.name "renderer") "app") [.name "dmap"]),
   .exprStmt (.call (.name "print") [.name "app"])]

/-- Cell 36: tornado/bokeh server imports, `loop = IOLoop.current()`,
`server = Server({'/': app}, port=0, loop=loop)`. -/
def nb1cell36 : List PyStmt :=
  [.impFrom "tornado.ioloop" ["IOLoop"] none,
   .impFrom "bokeh.server.server" ["Server"] none,
   .assign (.name "loop") (.call (.attr (.name "IOLoop") "current") []),
   .assign (.name "server")
     (.call (.name "Server")
       [.dictLit [.strLit "/"] [.name "app"],
        .kw "port" (.intLit 0), .kw "loop" (.name "loop")])]

/-- Cell 38: `def show_callback(): server.show('/')`,
`loop.add_callback(show_callback)`, `server.start()`. -/
def nb1cell38 : List PyStmt :=
  [.fundecl "show_callback" []
     [.exprStmt (.call (.attr (.name "server") "show") [.strLit "/"])],
   .exprStmt (.call (.attr (.name "loop") "add_callback") [.name "show_callback"]),
   .exprStmt (.call (.attr (.name "server") "start") [])]

/-- Cell 40: `server.stop()`. -/
def nb1cell40 : List PyStmt :=
  [.exprStmt (.call (.attr (.name "server") "stop") [])]

/-- Cell 42: `server = renderer.app(dmap, show=True, new_window=True)`. -/
def nb1cell42 : List PyStmt :=
  [.assign (.name "server")
     (.call (.attr (.name "renderer") "app")
       [.name "dmap", .kw "show" (.boolLit true), .kw "new_window" (.boolLit true)])]

/-- Cell 45: `server.stop()`. -/
def nb1cell45 : List PyStmt :=
  [.exprStmt (.call (.attr (.name "server") "stop") [])]

/-- Cell 48: `renderer.app(dmap, show=True, websocket_origin='localhost:8888')`. -/
def nb1cell48 : List PyStmt :=
  [.exprStmt (.call (.attr (.name "renderer") "app")
     [.name "dmap", .kw "show" (.boolLit true),
      .kw "websocket_origin" (.strLit "localhost:8888")])]

/-- Cell 51: the periodic-callback sine app driven by a `Counter` stream. -/
def nb1cell51 : List PyStmt :=
  [.fundecl "sine" ["counter"]
     [.assign (.name "phase")
        (.binop "*"
          (.binop "%" (.binop "*" (.name "counter") (.fltLit 1 1)) (.attr (.name "np") "pi"))
          (.intLit 2)),
      .assign (.name "xs")
        (.call (.attr (.name "np") "linspace")
          [.intLit 0, .binop "*" (.attr (.name "np") "pi") (.intLit 4)]),
      .ret (.call (.attr (.call (.attr (.name "hv") "Curve")
              [.tupleLit [.name "xs",
                 .call (.attr (.name "np") "sin") [.binop "+" (.name "xs") (.name "phase")]]])
             "opts")
             [.kw "plot" (.call (.name "dict") [.kw "width" (.intLit 800)])])],
   .assign (.name "dmap")
     (.call (.attr (.name "hv") "DynamicMap")
       [.name "sine",
        .kw "streams" (.listLit [.call (.attr (.attr (.name "hv") "streams") "Counter") []])]),
   .assign (.name "app")
     (.call (.attr (.name "renderer") "app")
       [.name "dmap", .kw "show" (.boolLit true),
        .kw "websocket_origin" (.strLit "localhost:8888")])]

/-- Cell 54: `dmap.periodic(0.1, 100)`. -/
def nb1cell54 : List PyStmt :=
  [.exprStmt (.call (.attr (.name "dmap") "periodic") [.fltLit 1 1, .intLit 100])]

/-- Cell 57: the combined HoloViews/bokeh app defining `modify_doc` with its
nested `animate_update`, `slider_update` and `animate` callbacks. -/
def nb1cell57 : List PyStmt :=
  [.imp "numpy" (some "np"),
   .imp "holoviews" (some "hv"),
   .impFrom "bokeh.application.handlers" ["FunctionHandler"] none,
   .impFrom "bokeh.application" ["Application"] none,
   .impFrom "bokeh.io" ["show"] none,
   .impFrom "bokeh.layouts" ["layout"] none,
   .impFrom "bokeh.models" ["Slider", "Button"] none,
   .assign (.name "renderer")
     (.call (.attr (.call (.attr (.name "hv") "renderer") [.strLit "bokeh"]) "instance")
       [.kw "mode" (.strLit "server")]),
   .fundecl "sine" ["phase"]
     [.assign (.name "xs")
        (.call (.attr (.name "np") "linspace")
          [.intLit 0, .binop "*" (.attr (.name "np") "pi") (.intLit 4)]),
      .ret (.call (.attr (.call (.attr (.name "hv") "Curve")
              [.tupleLit [.name "xs",
                 .call (.attr (.name "np") "sin") [.binop "+" (.name "xs") (.name "phase")]]])
             "opts")
             [.kw "plot" (.call (.name "dict") [.kw "width" (.intLit 800)])])],
   .assign (.name "stream")
     (.call (.call (.attr (.attr (.attr (.name "hv") "streams") "Stream") "define")
       [.strLit "Phase", .kw "phase" (.fltLit 0 1)]) []),
   .assign (.name "dmap")
     (.call (.attr (.name "hv") "DynamicMap")
       [.name "sine", .kw "streams" (.listLit [.name "stream"])]),
   .fundecl "modify_doc" ["doc"]
     [.assign (.name "hvplot")
        (.call (.attr (.name "renderer") "get_plot") [.name "dmap", .name "doc"]),
      .fundecl "animate_update" []
        [.assign (.name "year") (.binop "+" (.attr (.name "slider") "value") (.fltLit 2 1)),
         .ifStmt (.binop ">" (.name "year") (.name "end"))
           [.assign (.name "year") (.name "start")] [],
         .assign (.attr (.name "slider") "value") (.name "year")],
      .fundecl "slider_update" ["attrname", "old", "new"]
        [.exprStmt (.call (.attr (.name "stream") "event") [.kw "phase" (.name "new")])],
      .assign (.tupleLit [.name "start", .name "end"])
        (.tupleLit [.intLit 0, .binop "*" (.attr (.name "np") "pi") (.intLit 2)]),
      .assign (.name "slider")
        (.call (.name "Slider")
          [.kw "start" (.name "start"), .kw "end" (.name "end"),
           .kw "value" (.name "start"), .kw "step" (.fltLit 2 1),
           .kw "title" (.strLit "Phase")]),
      .exprStmt (.call (.attr (.name "slider") "on_change")
        [.strLit "value", .name "slider_update"]),
      .fundecl "animate" []
        [.ifStmt (.binop "==" (.attr (.name "button") "label") (.strLit "► Play"))
           [.assign (.attr (.name "button") "label") (.strLit "❚❚ Pause"),
            .exprStmt (.call (.attr (.name "doc") "add_periodic_callback")
              [.name "animate_update", .intLit 50])]
           [.assign (.attr (.name "button") "label") (.strLit "► Play"),
            .exprStmt (.call (.attr (.name "doc") "remove_periodic_callback")
              [.name "animate_update"])]],
      .assign (.name "button")
        (.call (.name "Button") [.kw "label" (.strLit "► Play"), .kw "width" (.intLit 60)]),
      .exprStmt (.call (.attr (.name "button") "on_click") [.name "animate"]),
      .assign (.name "plot")
        (.call (.name "layout")
          [.listLit [.listLit [.attr (.name "hvplot") "state"],
                     .listLit [.name "slider", .name "button"]],
           .kw "sizing_mode" (.strLit "fixed")]),
      .exprStmt (.call (.attr (.name "doc") "add_root") [.name "plot"]),
      .ret (.name "doc")],
   .assign (.name "handler") (.call (.name "FunctionHandler") [.name "modify_doc"]),
   .assign (.name "app") (.call (.name "Application") [.name "handler"]),
   .exprStmt (.call (.name "show")
     [.name "app", .kw "notebook_url" (.strLit "localhost:8888")])]

/-- The deployment-guide notebook: 59 cells, of which 19 are code cells. -/
def deployingBokehApps : Notebook :=
  ⟨[.markdown, .code nb1cell2, .markdown, .code nb1cell4, .markdown, .markdown,
    .code nb1cell7, .markdown, .markdown, .code nb1cell10, .markdown, .markdown,
    .markdown, .code nb1cell14, .markdown, .markdown, .code nb1cell17, .markdown,
    .markdown, .code nb1cell20, .markdown, .markdown, .code nb1cell23, .markdown,
    .markdown, .code nb1cell26, .markdown, .markdown, .markdown, .markdown,
    .markdown, .markdown, .code nb1cell33, .markdown, .markdown, .code nb1cell36,
    .markdown, .code nb1cell38, .markdown, .code nb1cell40, .markdown,
    .code nb1cell42, .markdown, .markdown, .code nb1cell45, .markdown, .markdown,
    .code nb1cell48, .markdown, .markdown, .code nb1cell51, .markdown, .markdown,
    .code nb1cell54, .markdown, .markdown, .code nb1cell57, .markdown, .markdown]⟩

/-! ### Notebook 2: the Columns tutorial notebook.
Code cells are numbered by their position among the 81 cells. -/

/-- Cell 2: numpy/pandas/holoviews imports and `hv.notebook_extension()`. -/
def nb2cell2 : List PyStmt :=
  [.imp "numpy" (some "np"),
   .imp "pandas" (some "pd"),
   .imp "holoviews" (some "hv"),
   .exprStmt (.call (.attr (.name "hv") "notebook_extension") [])]

/-- Cell 5: `xs = range(10)`, `ys = np.linspace(0, 1, 10)`, `table = hv.Table(...)`. -/
def nb2cell5 : List PyStmt :=
  [.assign (.name "xs") (.call (.name "range") [.intLit 10]),
   .assign (.name "ys") (.call (.attr (.name "np") "linspace") [.intLit 0, .intLit 1, .intLit 10]),
   .assign (.name "table")
     (.call (.attr (.name "hv") "Table")
       [.tupleLit [.name "xs", .name "ys"],
        .kw "kdims" (.listLit [.strLit "x"]), .kw "vdims" (.listLit [.strLit "y"])])]

/-- Cell 7: `hv.Scatter(table) + hv.Curve(table) + hv.Bars(table)`. -/
def nb2cell7 : List PyStmt :=
  [.exprStmt (.binop "+"
     (.binop "+" (.call (.attr (.name "hv") "Scatter") [.name "table"])
                 (.call (.attr (.name "hv") "Curve") [.name "table"]))
     (.call (.attr (.name "hv") "Bars") [.name "table"]))]

/-- Cell 12: the three storage-format constructors (dict of columns, NxD
array via `np.column_stack`, pandas dataframe). -/
def nb2cell12 : List PyStmt :=
  [.exprStmt (.call (.name "print")
    [.call (.name "repr")
      [.binop "+"
        (.binop "+"
          (.call (.attr (.name "hv") "Scatter")
            [.dictLit [.strLit "x", .strLit "y"] [.name "xs", .name "ys"]])
          (.call (.attr (.name "hv") "Scatter")
            [.call (.attr (.name "np") "column_stack") [.listLit [.name "xs", .name "ys"]]]))
        (.call (.attr (.name "hv") "Scatter")
          [.call (.attr (.name "pd") "DataFrame")
            [.dictLit [.strLit "x", .strLit "y"] [.name "xs", .name "ys"]]])]])]

/-- Cell 14: the three literal constructors (iterator of values, tuple of
columns, iterator of row tuples). -/
def nb2cell14 : List PyStmt :=
  [.exprStmt (.call (.name "print")
    [.call (.name "repr")
      [.binop "+"
        (.binop "+"
          (.call (.attr (.name "hv") "Scatter") [.name "ys"])
          (.call (.attr (.name "hv") "Scatter") [.tupleLit [.name "xs", .name "ys"]]))
        (.call (.attr (.name "hv") "Scatter")
          [.call (.name "zip") [.name "xs", .name "ys"]])]])]

/-- Cell 16: `df = pd.DataFrame({...})` and the Python-2 statement
`print type(hv.Scatter(df).data)`. -/
def nb2cell16 : List PyStmt :=
  [.assign (.name "df")
     (.call (.attr (.name "pd") "DataFrame")
       [.dictLit [.strLit "x", .strLit "y", .strLit "z"]
                 [.name "xs", .name "ys", .binop "*" (.name "ys") (.intLit 2)]]),
   .printStmt (.call (.name "type")
     [.attr (.call (.attr (.name "hv") "Scatter") [.name "df"]) "data"])]

/-- Cell 18: `hv.Columns.datatype`. -/
def nb2cell18 : List PyStmt :=
  [.exprStmt (.attr (.attr (.name "hv") "Columns") "datatype")]

/-- Cell 20: explicit `datatype=['array'|'dictionary'|'dataframe']` selection. -/
def nb2cell20 : List PyStmt :=
  [.exprStmt (.call (.name "print")
    [.call (.name "type")
      [.attr (.call (.attr (.name "hv") "Scatter")
        [.tupleLit [.name "xs", .name "ys"],
         .kw "datatype" (.listLit [.strLit "array"])]) "data"]]),
   .exprStmt (.call (.name "print")
    [.call (.name "type")
      [.attr (.call (.attr (.name "hv") "Scatter")
        [.tupleLit [.name "xs", .name "ys"],
         .kw "datatype" (.listLit [.strLit "dictionary"])]) "data"]]),
   .exprStmt (.call (.name "print")
    [.call (.name "type")
      [.attr (.call (.attr (.name "hv") "Scatter")
        [.tupleLit [.name "xs", .name "ys"],
         .kw "datatype" (.listLit [.strLit "dataframe"])]) "data"]])]

/-- Cell 23: two `hv.Scatter` views sharing the dataframe `df`. -/
def nb2cell23 : List PyStmt :=
  [.assign (.name "overlay")
     (.binop "*"
       (.call (.attr (.name "hv") "Scatter")
         [.name "df", .kw "kdims" (.strLit "x"), .kw "vdims" (.strLit "y")])
       (.call (.attr (.name "hv") "Scatter")
         [.name "df", .kw "kdims" (.strLit "x"), .kw "vdims" (.strLit "z")])),
   .exprStmt (.name "overlay")]

/-- Cell 25: `overlay.Scatter.I.data is overlay.Scatter.II.data`. -/
def nb2cell25 : List PyStmt :=
  [.exprStmt (.binop "is"
     (.attr (.attr (.attr (.name "overlay") "Scatter") "I") "data")
     (.attr (.attr (.attr (.name "overlay") "Scatter") "II") "data"))]

/-- Cell 29: `table.array()`. -/
def nb2cell29 : List PyStmt :=
  [.exprStmt (.call (.attr (.name "table") "array") [])]

/-- Cell 31: `table.dframe().head()`. -/
def nb2cell31 : List PyStmt :=
  [.exprStmt (.call (.attr (.call (.attr (.name "table") "dframe") []) "head") [])]

/-- Cell 33: `table.columns()`. -/
def nb2cell33 : List PyStmt :=
  [.exprStmt (.call (.attr (.name "table") "columns") [])]

/-- Cell 37: `bars = hv.Bars(...)` and the three sort views. -/
def nb2cell37 : List PyStmt :=
  [.assign (.name "bars")
     (.call (.attr (.name "hv") "Bars")
       [.tupleLit [.listLit [.strLit "C", .strLit "A", .strLit "B", .strLit "D"],
                   .listLit [.intLit 2, .intLit 7, .intLit 3, .intLit 4]]]),
   .exprStmt (.binop "+"
     (.binop "+" (.name "bars") (.call (.attr (.name "bars") "sort") []))
     (.call (.attr (.name "bars") "sort") [.listLit [.strLit "y"]]))]

/-- Cell 40: synthetic grouped data and `table = hv.Table((xs, ys, zs), ...)`. -/
def nb2cell40 : List PyStmt :=
  [.magic "%%opts Table [aspect=2 fig_size=200]",
   .exprStmt (.call (.attr (.attr (.name "np") "random") "seed") [.intLit 42]),
   .assign (.name "n") (.call (.attr (.name "np") "arange") [.intLit 1000]),
   .assign (.name "xs")
     (.call (.attr (.name "np") "repeat") [.call (.name "range") [.intLit 2], .intLit 500]),
   .assign (.name "ys") (.binop "%" (.name "n") (.intLit 4)),
   .assign (.name "zs") (.call (.attr (.attr (.name "np") "random") "randn") [.intLit 1000]),
   .assign (.name "table")
     (.call (.attr (.name "hv") "Table")
       [.tupleLit [.name "xs", .name "ys", .name "zs"],
        .kw "kdims" (.listLit [.strLit "x", .strLit "y"]),
        .kw "vdims" (.listLit [.strLit "z"])]),
   .exprStmt (.name "table")]

/-- Cell 42: `hv.BoxWhisker(table)`. -/
def nb2cell42 : List PyStmt :=
  [.magic "%%opts BoxWhisker [aspect=2 fig_size=200 bgcolor=\x27w\x27]",
   .exprStmt (.call (.attr (.name "hv") "BoxWhisker") [.name "table"])]

/-- Cell 45: `aggregate`/`reduce` over the grouped table. -/
def nb2cell45 : List PyStmt :=
  [.magic "%%opts Bars [show_legend=False] \x7b+axiswise\x7d",
   .exprStmt (.binop "+"
     (.call (.attr (.call (.attr (.name "hv") "Bars") [.name "table"]) "aggregate")
       [.kw "function" (.attr (.name "np") "mean")])
     (.call (.attr (.call (.attr (.name "hv") "Bars") [.name "table"]) "reduce")
       [.kw "x" (.attr (.name "np") "mean")]))]

/-- Cell 49: a `HoloMap` of curves collapsed with mean/std. -/
def nb2cell49 : List PyStmt :=
  [.assign (.name "hmap")
     (.call (.attr (.name "hv") "HoloMap")
       [.dictComp (.name "i")
          (.call (.attr (.name "hv") "Curve")
            [.binop "*" (.call (.attr (.name "np") "arange") [.intLit 10]) (.name "i")])
          ["i"] (.call (.name "range") [.intLit 10]) none]),
   .assign (.name "collapsed")
     (.call (.attr (.name "hmap") "collapse")
       [.kw "function" (.attr (.name "np") "mean"),
        .kw "spreadfn" (.attr (.name "np") "std")]),
   .exprStmt (.binop "+"
     (.binop "*" (.call (.attr (.name "hv") "Spread") [.name "collapsed"])
                 (.call (.attr (.name "hv") "Curve") [.name "collapsed"]))
     (.call (.attr (.name "collapsed") "table") []))]

/-- Cell 51: fetch of the remote macro-economic CSV over HTTP and column
renaming. -/
def nb2cell51 : List PyStmt :=
  [.assign (.name "macro_df")
     (.call (.attr (.name "pd") "read_csv")
       [.strLit "http://ioam.github.com/holoviews/Tutorials/macro.csv", .strLit "\t"]),
   .assign (.name "dimensions")
     (.dictLit [.strLit "unem", .strLit "capmob", .strLit "gdp",
                .strLit "trade", .strLit "year", .strLit "country"]
               [.strLit "Unemployment", .strLit "Capital Mobility", .strLit "GDP Growth",
                .strLit "Trade", .strLit "Year", .strLit "Country"]),
   .assign (.name "macro_df")
     (.call (.attr (.name "macro_df") "rename") [.kw "columns" (.name "dimensions")])]

/-- Cell 53: global plot options via `hv.Store.options()`. -/
def nb2cell53 : List PyStmt :=
  [.magic "%output dpi=100",
   .assign (.name "options") (.call (.attr (.attr (.name "hv") "Store") "options") []),
   .assign (.name "opts")
     (.call (.attr (.name "hv") "Options")
       [.strLit "plot", .kw "aspect" (.intLit 2), .kw "fig_size" (.intLit 250),
        .kw "show_frame" (.boolLit false), .kw "show_grid" (.boolLit true),
        .kw "legend_position" (.strLit "right")]),
   .assign (.attr (.name "options") "NdOverlay") (.name "opts"),
   .assign (.attr (.name "options") "Overlay") (.name "opts")]

/-- Cell 55: `macro = hv.Table(macro_df, kdims=['Year', 'Country'])`. -/
def nb2cell55 : List PyStmt :=
  [.assign (.name "macro")
     (.call (.attr (.name "hv") "Table")
       [.name "macro_df", .kw "kdims" (.listLit [.strLit "Year", .strLit "Country"])])]

/-- Cell 57: `macro = macro.sort()` and the `macro[1988]` view. -/
def nb2cell57 : List PyStmt :=
  [.magic "%%opts Table [aspect=1.5 fig_size=300]",
   .assign (.name "macro") (.call (.attr (.name "macro") "sort") []),
   .exprStmt (.subscript (.name "macro") (.intLit 1988))]

/-- Cell 59: GDP-growth curves by year, overlaid by country. -/
def nb2cell59 : List PyStmt :=
  [.magic "%%opts Curve (color=Palette(\x27Set3\x27))",
   .assign (.name "gdp_curves")
     (.call (.attr (.attr (.name "macro") "to") "curve")
       [.strLit "Year", .strLit "GDP Growth"]),
   .exprStmt (.call (.attr (.name "gdp_curves") "overlay") [.strLit "Country"])]

/-- Cell 61: collapsed mean/min/max GDP-growth curves inside an `Overlay`. -/
def nb2cell61 : List PyStmt :=
  [.magic "%%opts Overlay [bgcolor=\x27w\x27 legend_position=\x27top_right\x27] Curve (color=\x27k\x27 linewidth=1) Spread (color=\x27gray\x27 alpha=0.2)",
   .exprStmt (.binop "*"
     (.call (.attr (.name "hv") "Spread")
       [.call (.attr (.name "gdp_curves") "collapse")
          [.strLit "Country", .attr (.name "np") "mean", .attr (.name "np") "std"],
        .kw "label" (.strLit "std")])
     (.call (.attr (.name "hv") "Overlay")
       [.listComp
          (.call (.call (.attr (.call (.attr (.name "gdp_curves") "collapse")
                    [.strLit "Country", .name "fn"]) "relabel") [.name "name"])
            [.kw "style" (.call (.name "dict") [.kw "linestyle" (.name "ls")])])
          ["name", "fn", "ls"]
          (.listLit
            [.tupleLit [.strLit "max", .attr (.name "np") "max", .strLit "--"],
             .tupleLit [.strLit "mean", .attr (.name "np") "mean", .strLit "-"],
             .tupleLit [.strLit "min", .attr (.name "np") "min", .strLit "--"]])
          none]))]

/-- Cell 63: a `%opts` magic only. -/
def nb2cell63 : List PyStmt :=
  [.magic "%opts Bars [bgcolor=\x27w\x27 aspect=3 figure_size=450 show_frame=False]"]

/-- Cell 64: grouped/stacked trade-surplus bars. -/
def nb2cell64 : List PyStmt :=
  [.magic "%%opts Bars [category_index=2 stack_index=0 group_index=1 legend_position=\x27top\x27 legend_cols=7 color_by=[\x27stack\x27]] (color=Palette(\x27Dark2\x27))",
   .exprStmt (.call (.attr (.attr (.name "macro") "to") "bars")
     [.listLit [.strLit "Country", .strLit "Year"], .strLit "Trade", .listLit []])]

/-- Cell 66: `.select` over years and a set of countries. -/
def nb2cell66 : List PyStmt :=
  [.magic "%%opts Bars [padding=0.02 color_by=[\x27group\x27]] (alpha=0.6, color=Palette(\x27Set1\x27, reverse=True)[0.:.2])",
   .assign (.name "countries")
     (.setLit [.strLit "Belgium", .strLit "Netherlands", .strLit "Sweden", .strLit "Norway"]),
   .exprStmt (.call (.attr (.call (.attr (.attr (.name "macro") "to") "bars")
       [.listLit [.strLit "Country", .strLit "Year"], .strLit "Unemployment"]) "select")
     [.kw "Year" (.tupleLit [.intLit 1978, .intLit 1985]),
      .kw "Country" (.name "countries")])]

/-- Cell 68: two `%opts` magics only. -/
def nb2cell68 : List PyStmt :=
  [.magic "%opts HeatMap [show_values=False xticks=40 xrotation=90 aspect=1.2 invert_yaxis=True]",
   .magic "%opts Layout [figure_size=120 aspect_weight=0.2]"]

/-- Cell 69: a `Layout` of heatmaps over `macro.data.columns[2:]`. -/
def nb2cell69 : List PyStmt :=
  [.exprStmt (.call (.attr (.call (.attr (.name "hv") "Layout")
      [.listComp
         (.call (.attr (.call (.attr (.attr (.name "macro") "to") "heatmap")
             [.listLit [.strLit "Year", .strLit "Country"], .name "value"]) "relabel")
           [.name "value"])
         ["value"]
         (.subscript (.attr (.attr (.name "macro") "data") "columns")
           (.sliceE (some (.intLit 2)) none))
         none]) "cols")
    [.intLit 2])]

/-- Cell 71: GDP-growth/unemployment scatter, overlaid by country. -/
def nb2cell71 : List PyStmt :=
  [.magic "%%opts Scatter [scaling_factor=1.4] (color=Palette(\x27Set3\x27) edgecolors=\x27k\x27)",
   .assign (.name "gdp_unem_scatter")
     (.call (.attr (.attr (.name "macro") "to") "scatter")
       [.strLit "Year", .listLit [.strLit "GDP Growth", .strLit "Unemployment"]]),
   .exprStmt (.call (.attr (.name "gdp_unem_scatter") "overlay") [.strLit "Country"])]

/-- Cell 73: scatter of GDP growth against unemployment, overlaid. -/
def nb2cell73 : List PyStmt :=
  [.magic "%%opts NdOverlay [legend_cols=2] Scatter [size_index=1 scaling_factor=1.3] (color=Palette(\x27Blues\x27))",
   .exprStmt (.call (.attr (.call (.attr (.attr (.name "macro") "to") "scatter")
       [.strLit "GDP Growth", .strLit "Unemployment", .listLit [.strLit "Year"]]) "overlay")
     [])]

/-- Cell 76: combined overlay with `hv.Arrow` annotations. -/
def nb2cell76 : List PyStmt :=
  [.magic "%%opts Curve (color=\x27k\x27) Scatter [color_index=2 size_index=2 scaling_factor=1.4] (cmap=\x27Blues\x27 edgecolors=\x27k\x27)",
   .assign (.name "macro_overlay")
     (.binop "*" (.name "gdp_curves") (.name "gdp_unem_scatter")),
   .assign (.name "annotations")
     (.binop "*"
       (.binop "*"
         (.binop "*"
           (.call (.attr (.name "hv") "Arrow")
             [.intLit 1973, .intLit 8, .strLit "Oil Crisis", .strLit "v"])
           (.call (.attr (.name "hv") "Arrow")
             [.intLit 1975, .intLit 6, .strLit "Stagflation", .strLit "v"]))
         (.call (.attr (.name "hv") "Arrow")
           [.intLit 1979, .intLit 8, .strLit "Energy Crisis", .strLit "v"]))
       (.call (.attr (.name "hv") "Arrow")
         [.fltLit 19819 1, .intLit 5, .strLit "Early Eighties\n Recession", .strLit "v"])),
   .exprStmt (.binop "*" (.name "macro_overlay") (.name "annotations"))]

/-- Cell 78: a `%opts` magic only. -/
def nb2cell78 : List PyStmt :=
  [.magic "%opts Overlay [aspect=1]"]

/-- Cell 79: selected countries laid out side by side. -/
def nb2cell79 : List PyStmt :=
  [.magic "%%opts NdLayout [figure_size=100] Scatter [color_index=2] (cmap=\x27Reds\x27)",
   .assign (.name "countries")
     (.setLit [.strLit "United States", .strLit "Canada", .strLit "United Kingdom"]),
   .exprStmt (.call (.attr (.call (.attr
       (.binop "*" (.name "gdp_curves") (.name "gdp_unem_scatter")) "select")
       [.kw "Country" (.name "countries")]) "layout")
     [.strLit "Country"])]

/-- Cell 81: the final `Layout` of indicator plots per country. -/
def nb2cell81 : List PyStmt :=
  [.magic "%%opts Layout [fig_size=100] Scatter [color_index=2] (cmap=\x27Reds\x27)",
   .exprStmt (.call (.attr
     (.binop "+"
       (.binop "+"
         (.binop "+"
           (.call (.attr (.name "macro_overlay") "relabel")
             [.strLit "GDP Growth", .kw "depth" (.intLit 1)])
           (.call (.attr (.attr (.name "macro") "to") "curve")
             [.strLit "Year", .strLit "Unemployment", .listLit [.strLit "Country"],
              .kw "group" (.strLit "Unemployment")]))
         (.call (.attr (.attr (.name "macro") "to") "curve")
           [.strLit "Year", .strLit "Trade", .listLit [.strLit "Country"],
            .kw "group" (.strLit "Trade")]))
       (.call (.attr (.attr (.name "macro") "to") "scatter")
         [.strLit "GDP Growth", .strLit "Unemployment", .listLit [.strLit "Country"]]))
     "cols")
    [.intLit 2])]

/-- The Columns tutorial notebook: 81 cells, of which 35 are code cells. -/
def columnsTutorial : Notebook :=
  ⟨[.markdown, .code nb2cell2, .markdown, .markdown, .code nb2cell5, .markdown,
    .code nb2cell7, .markdown, .markdown, .markdown, .markdown, .code nb2cell12,
    .markdown, .code nb2cell14, .markdown, .code nb2cell16, .markdown,
    .code nb2cell18, .markdown, .code nb2cell20, .markdown, .markdown,
    .code nb2cell23, .markdown, .code nb2cell25, .markdown, .markdown, .markdown,
    .code nb2cell29, .markdown, .code nb2cell31, .markdown, .code nb2cell33,
    .markdown, .markdown, .markdown, .code nb2cell37, .markdown, .markdown,
    .code nb2cell40, .markdown, .code nb2cell42, .markdown, .markdown,
    .code nb2cell45, .markdown, .markdown, .markdown, .code nb2cell49, .markdown,
    .code nb2cell51, .markdown, .code nb2cell53, .markdown, .code nb2cell55,
    .markdown, .code nb2cell57, .markdown, .code nb2cell59, .markdown,
    .code nb2cell61, .markdown, .code nb2cell63, .code nb2cell64, .markdown,
    .code nb2cell66, .markdown, .code nb2cell68, .code nb2cell69, .markdown,
    .code nb2cell71, .markdown, .code nb2cell73, .markdown, .markdown,
    .code nb2cell76, .markdown, .code nb2cell78, .code nb2cell79, .markdown,
    .code nb2cell81]⟩

/-! ### Notebook 3: the texas choropleth example notebook (6 cells). -/

/-- Cell 2: imports, `hv.extension('matplotlib')` and the `%output` magic. -/
def nb3cell2 : List PyStmt :=
  [.imp "numpy" (some "np"),
   .imp "holoviews" (some "hv"),
   .exprStmt (.call (.attr (.name "hv") "extension") [.strLit "matplotlib"]),
   .magic "%output fig=\x27svg\x27"]

/-- Cell 4: bokeh sample-data imports, the texas filter, and the
construction of `county_polys` and `choropleth`. -/
def nb3cell4 : List PyStmt :=
  [.impFrom "bokeh.sampledata.us_counties" ["data"] (some "counties"),
   .impFrom "bokeh.sampledata.unemployment" ["data"] (some "unemployment"),
   .assign (.name "counties")
     (.dictComp (.name "code") (.name "county") ["code", "county"]
       (.call (.attr (.name "counties") "items") [])
       (some (.binop "=="
         (.subscript (.name "county") (.strLit "state")) (.strLit "tx")))),
   .assign (.name "county_xs")
     (.listComp (.subscript (.name "county") (.strLit "lons")) ["county"]
       (.call (.attr (.name "counties") "values") []) none),
   .assign (.name "county_ys")
     (.listComp (.subscript (.name "county") (.strLit "lats")) ["county"]
       (.call (.attr (.name "counties") "values") []) none),
   .assign (.name "county_names")
     (.listComp (.subscript (.name "county") (.strLit "name")) ["county"]
       (.call (.attr (.name "counties") "values") []) none),
   .assign (.name "county_rates")
     (.listComp (.subscript (.name "unemployment") (.name "county_id")) ["county_id"]
       (.name "counties") none),
   .assign (.name "county_polys")
     (.dictComp (.name "name")
       (.call (.attr (.name "hv") "Polygons")
         [.tupleLit [.name "xs", .name "ys"],
          .kw "level" (.name "rate"),
          .kw "vdims" (.listLit [.strLit "Unemployment"])])
       ["name", "xs", "ys", "rate"]
       (.call (.name "zip")
         [.name "county_names", .name "county_xs", .name "county_ys", .name "county_rates"])
       none),
   .assign (.name "choropleth")
     (.call (.attr (.name "hv") "NdOverlay")
       [.name "county_polys", .kw "kdims" (.listLit [.strLit "County"])])]

/-- Cell 6: plot options and the final `choropleth({...})` call. -/
def nb3cell6 : List PyStmt :=
  [.assign (.name "plot_opts")
     (.call (.name "dict")
       [.kw "logz" (.boolLit true), .kw "xaxis" .noneLit, .kw "yaxis" .noneLit,
        .kw "show_grid" (.boolLit false), .kw "show_frame" (.boolLit false),
        .kw "fig_size" (.intLit 200), .kw "bgcolor" (.strLit "white")]),
   .assign (.name "style")
     (.call (.name "dict") [.kw "edgecolor" (.strLit "white")]),
   .exprStmt (.call (.name "choropleth")
     [.dictLit [.strLit "Polygons"]
       [.dictLit [.strLit "style", .strLit "plot"] [.name "style", .name "plot_opts"]]])]

/-- The texas choropleth notebook: 6 cells, of which 3 are code cells. -/
def texasChoropleth : Notebook :=
  ⟨[.markdown, .code nb3cell2, .markdown, .code nb3cell4, .markdown, .code nb3cell6]⟩

/-- The whole repository corpus: its three notebook documents. -/
def corpus : List Notebook := [deployingBokehApps, columnsTutorial, texasChoropleth]

/-! ### Syntactic analyses over the embedded corpus -/

/-- The statements of a cell (markdown cells hold none). -/
def cellStmts : Cell → List PyStmt
  | .markdown => []
  | .code ss => ss

/-- All top-level statements of a notebook, in cell order. -/
def notebookStmts (nb : Notebook) : List PyStmt :=
  (nb.cells.map cellStmts).flatten

/-- All top-level statements of the three notebooks, in order. -/
def corpusStmts : List PyStmt :=
  (corpus.map notebookStmts).flatten

mutual
/-- Does a statement contain an `if` statement anywhere, including inside
nested function-definition bodies? -/
def stmtHasIf : PyStmt → Bool
  | .fundecl _ _ body => stmtsHaveIf body
  | .ifStmt _ _ _ => true
  | .forStmt _ _ body => stmtsHaveIf body
  | .whileStmt _ body => stmtsHaveIf body
  | .tryStmt body handlers => stmtsHaveIf body || stmtsHaveIf handlers
  | _ => false
/-- Does any statement of the list contain an `if` statement? -/
def stmtsHaveIf : List PyStmt → Bool
  | [] => false
  | s :: ss => stmtHasIf s || stmtsHaveIf ss
end

mutual
/-- Does a statement contain a `for` or `while` loop statement anywhere? -/
def stmtHasLoop : PyStmt → Bool
  | .fundecl _ _ body => stmtsHaveLoop body
  | .ifStmt _ thn els => stmtsHaveLoop thn || stmtsHaveLoop els
  | .forStmt _ _ _ => true
  | .whileStmt _ _ => true
  | .tryStmt body handlers => stmtsHaveLoop body || stmtsHaveLoop handlers
  | _ => false
/-- Does any statement of the list contain a loop statement? -/
def stmtsHaveLoop : List PyStmt → Bool
  | [] => false
  | s :: ss => stmtHasLoop s || stmtsHaveLoop ss
end

mutual
/-- Does a statement contain a `try`/`except` statement anywhere? -/
def stmtHasTry : PyStmt → Bool
  | .fundecl _ _ body => stmtsHaveTry body
  | .ifStmt _ thn els => stmtsHaveTry thn || stmtsHaveTry els
  | .forStmt _ _ body => stmtsHaveTry body
  | .whileStmt _ body => stmtsHaveTry body
  | .tryStmt _ _ => true
  | _ => false
/-- Does any statement of the list contain a `try` statement? -/
def stmtsHaveTry : List PyStmt → Bool
  | [] => false
  | s :: ss => stmtHasTry s || stmtsHaveTry ss
end

mutual
/-- Does a statement contain a `raise` statement anywhere? -/
def stmtHasRaise : PyStmt → Bool
  | .fundecl _ _ body => stmtsHaveRaise body
  | .ifStmt _ thn els => stmtsHaveRaise thn || stmtsHaveRaise els
  | .forStmt _ _ body => stmtsHaveRaise body
  | .whileStmt _ body => stmtsHaveRaise body
  | .tryStmt body handlers => stmtsHaveRaise body || stmtsHaveRaise handlers
  | .raiseStmt _ => true
  | _ => false
/-- Does any statement of the list contain a `raise` statement? -/
def stmtsHaveRaise : List PyStmt → Bool
  | [] => false
  | s :: ss => stmtHasRaise s || stmtsHaveRaise ss
end

mutual
/-- Does a statement contain an `if` statement outside of any function
definition (i.e. one that runs during straight-line cell execution)? -/
def stmtHasIfOutsideDefs : PyStmt → Bool
  | .fundecl _ _ _ => false
  | .ifStmt _ _ _ => true
  | .forStmt _ _ body => stmtsHaveIfOutsideDefs body
  | .whileStmt _ body => stmtsHaveIfOutsideDefs body
  | .tryStmt body handlers => stmtsHaveIfOutsideDefs body || stmtsHaveIfOutsideDefs handlers
  | _ => false
/-- List version of `stmtHasIfOutsideDefs`. -/
def stmtsHaveIfOutsideDefs : List PyStmt → Bool
  | [] => false
  | s :: ss => stmtHasIfOutsideDefs s || stmtsHaveIfOutsideDefs ss
end

mutual
/-- All function names defined by `def` statements in a statement,
including nested definitions, in traversal order. -/
def stmtFundeclNames : PyStmt → List String
  | .fundecl f _ body => f :: stmtsFundeclNames body
  | .ifStmt _ thn els => stmtsFundeclNames thn ++ stmtsFundeclNames els
  | .forStmt _ _ body => stmtsFundeclNames body
  | .whileStmt _ body => stmtsFundeclNames body
  | .tryStmt body handlers => stmtsFundeclNames body ++ stmtsFundeclNames handlers
  | _ => []
/-- List version of `stmtFundeclNames`. -/
def stmtsFundeclNames : List PyStmt → List String
  | [] => []
  | s :: ss => stmtFundeclNames s ++ stmtsFundeclNames ss
end

mutual
/-- All parameter names of function definitions in a statement, nested
definitions included. -/
def stmtFundeclParams : PyStmt → List String
  | .fundecl _ ps body => ps ++ stmtsFundeclParams body
  | .ifStmt _ thn els => stmtsFundeclParams thn ++ stmtsFundeclParams els
  | .forStmt _ _ body => stmtsFundeclParams body
  | .whileStmt _ body => stmtsFundeclParams body
  | .tryStmt body handlers => stmtsFundeclParams body ++ stmtsFundeclParams handlers
  | _ => []
/-- List version of `stmtFundeclParams`. -/
def stmtsFundeclParams : List PyStmt → List String
  | [] => []
  | s :: ss => stmtFundeclParams s ++ stmtsFundeclParams ss
end

mutual
/-- Does `p` hold of some sub-expression of `e` (including `e` itself)? -/
def exprAny (p : PyExpr → Bool) (e : PyExpr) : Bool :=
  p e ||
  match e with
  | .attr e2 _ => exprAny p e2
  | .call f args => exprAny p f || exprsAny p args
  | .kw _ e2 => exprAny p e2
  | .kwStar e2 => exprAny p e2
  | .binop _ l r => exprAny p l || exprAny p r
  | .unop _ e2 => exprAny p e2
  | .subscript e2 i => exprAny p e2 || exprAny p i
  | .sliceE lo hi => exprOptAny p lo || exprOptAny p hi
  | .tupleLit es => exprsAny p es
  | .listLit es => exprsAny p es
  | .setLit es => exprsAny p es
  | .dictLit ks vs => exprsAny p ks || exprsAny p vs
  | .listComp b _ it c => exprAny p b || exprAny p it || exprOptAny p c
  | .dictComp k v _ it c => exprAny p k || exprAny p v || exprAny p it || exprOptAny p c
  | _ => false
/-- Does `p` hold of some sub-expression of some element of `es`? -/
def exprsAny (p : PyExpr → Bool) (es : List PyExpr) : Bool :=
  match es with
  | [] => false
  | e :: es => exprAny p e || exprsAny p es
/-- Does `p` hold of some sub-expression of `oe`, when present? -/
def exprOptAny (p : PyExpr → Bool) (oe : Option PyExpr) : Bool :=
  match oe with
  | none => false
  | some e => exprAny p e
end

mutual
/-- Does `p` hold of some expression occurring anywhere in a statement,
nested statement bodies included? -/
def stmtExprAny (p : PyExpr → Bool) (s : PyStmt) : Bool :=
  match s with
  | .assign t r => exprAny p t || exprAny p r
  | .exprStmt e => exprAny p e
  | .ret e => exprAny p e
  | .raiseStmt e => exprAny p e
  | .printStmt e => exprAny p e
  | .fundecl _ _ body => stmtsExprAny p body
  | .ifStmt c thn els => exprAny p c || stmtsExprAny p thn || stmtsExprAny p els
  | .forStmt _ it body => exprAny p it || stmtsExprAny p body
  | .whileStmt c body => exprAny p c || stmtsExprAny p body
  | .tryStmt body handlers => stmtsExprAny p body || stmtsExprAny p handlers
  | .imp _ _ => false
  | .impFrom _ _ _ => false
  | .magic _ => false
/-- List version of `stmtExprAny`. -/
def stmtsExprAny (p : PyExpr → Bool) (ss : List PyStmt) : Bool :=
  match ss with
  | [] => false
  | s :: ss => stmtExprAny p s || stmtsExprAny p ss
end

/-- Does some cell of the corpus contain an `if` statement (at any depth)? -/
def corpusHasIf : Bool := stmtsHaveIf corpusStmts

/-- Does some cell of the corpus contain a loop statement (at any depth)? -/
def corpusHasLoop : Bool := stmtsHaveLoop corpusStmts

/-- Does some cell of the corpus contain a `try` statement (at any depth)? -/
def corpusHasTry : Bool := stmtsHaveTry corpusStmts

/-- Does some cell of the corpus contain a `raise` statement (at any depth)? -/
def corpusHasRaise : Bool := stmtsHaveRaise corpusStmts

/-- Does some cell run an `if` statement during top-level cell execution
(outside every function-definition body)? -/
def corpusHasIfOutsideDefs : Bool := stmtsHaveIfOutsideDefs corpusStmts

/-- Is a top-level statement a control-flow statement (conditional, loop,
or exception handler)? -/
def stmtIsControl : PyStmt → Bool
  | .ifStmt _ _ _ => true
  | .forStmt _ _ _ => true
  | .whileStmt _ _ => true
  | .tryStmt _ _ => true
  | _ => false

/-- Is every top-level statement of every cell free of control-flow
statement forms (straight-line cell execution)? -/
def corpusTopLevelStraight : Bool :=
  corpusStmts.all (fun s => !stmtIsControl s)

/-- The function names defined anywhere in the corpus, in order. -/
def corpusFundeclNames : List String := stmtsFundeclNames corpusStmts

/-- The modules imported by the corpus's `import`/`from ... import`
statements (imports only occur at cell top level in these notebooks). -/
def corpusImportedModules : List String :=
  corpusStmts.foldr
    (fun s acc =>
      match s with
      | .imp m _ => m :: acc
      | .impFrom m _ _ => m :: acc
      | _ => acc) []

/-- String prefix test by character list (kernel-reducible, unlike the
byte-based `String.isPrefixOf`). -/
def strLeads (p s : String) : Bool :=
  p.data.isPrefixOf s.data

/-- Is a module path part of one of the external libraries the notebooks
demonstrate (numpy, pandas, holoviews, bokeh, tornado)? -/
def isExternalModule (m : String) : Bool :=
  ["numpy", "pandas", "holoviews", "bokeh", "tornado"].any
    (fun r => r == m || strLeads (r ++ ".") m)

/-- The names an `import`/`from ... import` statement binds in the cell's
namespace (the alias when present, otherwise the imported names). -/
def stmtImportedNames : PyStmt → List String
  | .imp m none => [m]
  | .imp _ (some a) => [a]
  | .impFrom _ ns none => ns
  | .impFrom _ _ (some a) => [a]
  | _ => []

/-- The root identifier of an expression (the name at the head of an
attribute/call/subscript chain). -/
def rootName : PyExpr → Option String
  | .name x => some x
  | .attr e _ => rootName e
  | .call f _ => rootName f
  | .subscript e _ => rootName e
  | _ => none

mutual
/-- All assignments in a statement (nested bodies included), as pairs of
the target's root identifier and the right-hand side's root identifier. -/
def stmtAssignRoots : PyStmt → List (Option String × Option String)
  | .assign t r => [(rootName t, rootName r)]
  | .fundecl _ _ body => stmtsAssignRoots body
  | .ifStmt _ thn els => stmtsAssignRoots thn ++ stmtsAssignRoots els
  | .forStmt _ _ body => stmtsAssignRoots body
  | .whileStmt _ body => stmtsAssignRoots body
  | .tryStmt body handlers => stmtsAssignRoots body ++ stmtsAssignRoots handlers
  | _ => []
/-- List version of `stmtAssignRoots`. -/
def stmtsAssignRoots : List PyStmt → List (Option String × Option String)
  | [] => []
  | s :: ss => stmtAssignRoots s ++ stmtsAssignRoots ss
end

/-- The name-to-name assignment edges of the corpus: `(x, y)` when some
statement assigns to root `x` an expression rooted at `y`. -/
def corpusAssignEdges : List (String × String) :=
  (stmtsAssignRoots corpusStmts).foldr
    (fun p acc =>
      match p with
      | (some t, some r) => (t, r) :: acc
      | _ => acc) []

/-- Names bound directly to external-library objects: import bindings,
plus the parameters of the notebooks' callback functions (which are
invoked by, and receive their arguments from, the external library). -/
def externalSeedNames : List String :=
  (corpusStmts.map stmtImportedNames).flatten ++ stmtsFundeclParams corpusStmts

/-- One closure pass: add assignment targets whose right-hand side is
rooted at an already external-bound name. -/
def closeExternalStep (edges : List (String × String)) (acc : List String) : List String :=
  acc ++ (edges.filter (fun p => acc.contains p.2 && !acc.contains p.1)).map (·.1)

/-- Iterated closure of `externalSeedNames` under the corpus's
assignment edges. -/
def closeExternal : Nat → List String → List String
  | 0, acc => acc
  | n + 1, acc => closeExternal n (closeExternalStep corpusAssignEdges acc)

/-- All names in the corpus that are (transitively) bound to values
produced by the external libraries. -/
def externalBoundNames : List String :=
  closeExternal (corpusAssignEdges.length + 1) externalSeedNames

/-- Is call argument `a` a direct reference to the name `f` (positionally
or as a keyword argument)? -/
def argIsName (f : String) : PyExpr → Bool
  | .name g => g == f
  | .kw _ (.name g) => g == f
  | _ => false

/-- Expression node test: a call that passes the name `f` as an argument. -/
def passesName (f : String) : PyExpr → Bool
  | .call _ args => args.any (argIsName f)
  | _ => false

/-- Expression node test: a call whose callee is exactly the name `f`
(a direct invocation of `f`). -/
def callsDirectly (f : String) : PyExpr → Bool
  | .call (.name g) _ => g == f
  | _ => false

/-- Expression node test: a call that passes the name `f` as an argument
to a callee that is NOT rooted at an external-bound name. -/
def passesNameOutsideExternal (f : String) : PyExpr → Bool
  | .call c args =>
      args.any (argIsName f) &&
      (match rootName c with
       | some x => !externalBoundNames.contains x
       | none => true)
  | _ => false

/-- Does `p` hold of some expression anywhere in the corpus? -/
def corpusExprAny (p : PyExpr → Bool) : Bool :=
  corpusStmts.any (stmtExprAny p)

/-- Every function the corpus defines is handed to the external library:
its name is passed as a call argument, every call receiving it is rooted
at an external-bound name, and it is never invoked directly by any cell. -/
def corpusDefsHandedToExternal : Bool :=
  corpusFundeclNames.all (fun f =>
    corpusExprAny (passesName f) &&
    !corpusExprAny (passesNameOutsideExternal f) &&
    !corpusExprAny (callsDirectly f))

/-- Method names through which the notebooks start/stop servers and
register or drive callbacks on external objects. -/
def schedulingMethods : List String :=
  ["add_callback", "add_periodic_callback", "remove_periodic_callback",
   "periodic", "on_click", "on_change", "start", "stop", "show", "current",
   "add_root", "add_next_tick_callback", "add_timeout_callback"]

/-- Names of concurrency/scheduling primitives; the corpus must not
define a function with any of these names. -/
def concurrencyPrimitiveNames : List String :=
  ["Lock", "RLock", "Semaphore", "BoundedSemaphore", "Thread", "Timer",
   "Event", "Condition", "Barrier", "IOLoop", "Server", "PeriodicCallback",
   "add_callback", "add_periodic_callback", "remove_periodic_callback",
   "acquire", "release", "spawn", "run_forever", "start", "stop", "periodic",
   "on_click", "on_change", "schedule", "dispatch"]

/-- Expression node test: a scheduling/server method call whose receiver
is NOT rooted at an external-bound name. -/
def schedCallOutsideExternal : PyExpr → Bool
  | .call (.attr r m) _ =>
      schedulingMethods.contains m &&
      (match rootName r with
       | some x => !externalBoundNames.contains x
       | none => true)
  | _ => false

/-- Expression node test: an operation that consumes external input
(file/network reads, interactive input, command-line arguments). -/
def isInputExpr : PyExpr → Bool
  | .call (.attr _ m) _ =>
      m == "read_csv" || m == "read_table" || m == "read_json" ||
      m == "urlopen" || m == "urlretrieve" || m == "get"
  | .call (.name f) _ =>
      f == "open" || f == "input" || f == "raw_input" || f == "execfile"
  | .attr (.name "sys") "argv" => true
  | _ => false

/-- Does a statement consume external input: a `bokeh.sampledata` import
(reading a bundled dataset) or an input operation in its expressions? -/
def stmtConsumesInput (s : PyStmt) : Bool :=
  (match s with
   | .impFrom m _ _ => strLeads "bokeh.sampledata" m
   | _ => false) ||
  stmtExprAny isInputExpr s

/-- The statements of the corpus that consume external input. -/
def corpusInputStmts : List PyStmt :=
  corpusStmts.filter stmtConsumesInput

/-! ### Functional model: `selected_info` (notebook 1, cell 4) -/

/-- numpy fancy indexing `points.array()[index]`: select the rows at the
given positions, in order; an out-of-range position raises `IndexError`,
modelled as `none`. -/
def npTake (arr : List (ℚ × ℚ)) (index : List Nat) : Option (List (ℚ × ℚ)) :=
  index.mapM (fun i => arr[i]?)

/-- The label attached by `selected_info`: the formatted string
`'Mean x, y: %.3f, %.3f' % tuple(arr.mean(axis=0))` is abstracted as the
structured value `meanXY mx my` holding the two column means (decimal
string formatting of floats is not modelled); the empty selection gets
the literal label `'No selection'`. -/
inductive SelLabel where
  | noSelection
  | meanXY (mx my : ℚ)
  deriving Repr, DecidableEq

/-- A column mean, as computed by `arr.mean(axis=0)` per coordinate. -/
def qmean (l : List ℚ) : ℚ := l.sum / l.length

/-- The result of `selected_info`: a clone of the points element carrying
the selected rows and the label. -/
structure SelResult where
  data : List (ℚ × ℚ)
  label : SelLabel
  deriving Repr, DecidableEq

/-- The notebook's `selected_info(index)` callback over a points element
whose `.array()` is `points`: `arr = points.array()[index]`; if the index
list is truthy (non-empty) the label is the formatted column means of
`arr`, otherwise `'No selection'`; the result is `points.clone(arr,
label=label)` (the `.opts` styling call is display-only and not part of
the data model). -/
def selected_info (points : List (ℚ × ℚ)) (index : List Nat) : Option SelResult :=
  match npTake points index with
  | none => none
  | some arr =>
      let label := if index.isEmpty then SelLabel.noSelection
        else SelLabel.meanXY (qmean (arr.map Prod.fst)) (qmean (arr.map Prod.snd))
      some ⟨arr, label⟩

/-! ### Functional model: the `modify_doc` slider (notebook 1, cell 57) -/

/-- The bokeh slider state used by `modify_doc`.  The notebook's
real-valued quantities are modelled as rationals; the field `start` is
the widget's `start`, `endVal` its `end` (a Lean keyword), and `value`
its current value. -/
structure SliderState where
  start : ℚ
  endVal : ℚ
  value : ℚ
  deriving Repr, DecidableEq

/-- `Slider(start=start, end=end, value=start, step=0.2, title="Phase")`:
the widget starts at `value = start`. -/
def mkSlider (start endVal : ℚ) : SliderState :=
  ⟨start, endVal, start⟩

/-- The notebook's `animate_update` callback:
`year = slider.value + 0.2; if year > end: year = start;
slider.value = year`. -/
def animate_update (s : SliderState) : SliderState :=
  let year := s.value + 2/10
  let year := if year > s.endVal then s.start else year
  { s with value := year }

/-! ### Functional model: the texas choropleth (notebook 3, cell 4) -/

/-- A county record of the bokeh `us_counties` sample data, with the
fields the notebook reads. -/
structure County where
  name : String
  state : String
  lons : List ℚ
  lats : List ℚ
  deriving Repr, DecidableEq

/-- An `hv.Polygons((xs, ys), level=rate, vdims=['Unemployment'])`
element as constructed by the notebook. -/
structure Polygons where
  xs : List ℚ
  ys : List ℚ
  level : ℚ
  vdims : List String
  deriving Repr, DecidableEq

/-- Python-dict insertion: update the value at an existing key in place,
or append a new binding at the end. -/
def updateOrAppend {α : Type} : List (String × α) → String → α → List (String × α)
  | [], k, v => [(k, v)]
  | (k2, v2) :: rest, k, v =>
      if k2 == k then (k2, v) :: rest else (k2, v2) :: updateOrAppend rest k v

/-- The dictionary a Python dict comprehension builds from the sequence
of key/value pairs `ps` (later occurrences of a key overwrite earlier
ones, keeping the first position). -/
def dictOfPairs {α : Type} (ps : List (String × α)) : List (String × α) :=
  ps.foldl (fun acc p => updateOrAppend acc p.1 p.2) []

/-- Python `zip` of four sequences. -/
def zip4 {α β γ δ : Type} : List α → List β → List γ → List δ → List (α × β × γ × δ)
  | a :: as2, b :: bs, c :: cs, d :: ds => (a, b, c, d) :: zip4 as2 bs cs ds
  | _, _, _, _ => []

/-- The reassigned `counties` dict: `{code: county for code, county in
counties.items() if county["state"] == "tx"}`.  A Python dict is
modelled as an insertion-ordered association list. -/
def txCounties (counties : List (String × County)) : List (String × County) :=
  counties.filter (fun p => p.2.state == "tx")

/-- `county_xs = [county["lons"] for county in counties.values()]`
(over the already-filtered dict). -/
def county_xs (counties : List (String × County)) : List (List ℚ) :=
  counties.map (fun p => p.2.lons)

/-- `county_ys = [county["lats"] for county in counties.values()]`. -/
def county_ys (counties : List (String × County)) : List (List ℚ) :=
  counties.map (fun p => p.2.lats)

/-- `county_names = [county['name'] for county in counties.values()]`. -/
def county_names (counties : List (String × County)) : List String :=
  counties.map (fun p => p.2.name)

/-- `county_rates = [unemployment[county_id] for county_id in counties]`
(iteration over the dict's keys; `unemployment` maps county identifiers
to unemployment rates). -/
def county_rates (counties : List (String × County)) (unemployment : String → ℚ) : List ℚ :=
  counties.map (fun p => unemployment p.1)

/-- `county_polys = {name: hv.Polygons((xs, ys), level=rate,
vdims=['Unemployment']) for name, xs, ys, rate in zip(county_names,
county_xs, county_ys, county_rates)}`, with `counties` already filtered
to texas by the preceding reassignment. -/
def county_polys (counties : List (String × County)) (unemployment : String → ℚ) :
    List (String × Polygons) :=
  let cs := txCounties counties
  dictOfPairs
    ((zip4 (county_names cs) (county_xs cs) (county_ys cs) (county_rates cs unemployment)).map
      (fun q => (q.1, ⟨q.2.1, q.2.2.1, q.2.2.2, ["Unemployment"]⟩)))

/-- An `hv.NdOverlay(county_polys, kdims=['County'])` container: the key
dimensions and the layers it holds. -/
structure NdOverlay where
  kdims : List String
  items : List (String × Polygons)
  deriving Repr, DecidableEq

/-- `choropleth = hv.NdOverlay(county_polys, kdims=['County'])`. -/
def choropleth (counties : List (String × County)) (unemployment : String → ℚ) : NdOverlay :=
  ⟨["County"], county_polys counties unemployment⟩

/-! ### Model of the external library's columnar element (claim C1).
The implementing code (the external library's data interfaces) is not
part of this repository's sources; the model below follows the
specification's description of the column-oriented element abstraction
and the Columns tutorial's description of its storage formats. -/

/-- Modelled from the spec: the three interchangeable storage backends of
the external library's columnar element — a column dictionary, an N-by-D
array (N rows, D columns), and a tabular dataframe.  The implementing
library code is missing from the repository sources.  Cell values are
modelled as rationals. -/
inductive ColumnStorage where
  | dictionary (cols : List (String × List ℚ))
  | array (rows : List (List ℚ))
  | dataframe (cols : List (String × List ℚ))
  deriving Repr, DecidableEq

/-- Modelled from the spec: the storage-backend names accepted by the
`datatype` argument. -/
inductive Datatype where
  | dictionary
  | array
  | dataframe
  deriving Repr, DecidableEq

/-- Modelled from the spec: a columnar element — key dimensions, value
dimensions, and backing storage. -/
structure ColumnsEl where
  kdims : List String
  vdims : List String
  data : ColumnStorage
  deriving Repr, DecidableEq

/-- The number of rows of a column set (the length of its first column). -/
def nRows (cols : List (String × List ℚ)) : Nat :=
  match cols with
  | [] => 0
  | c :: _ => c.2.length

/-- The N-by-D array holding the given columns: row `i`, entry `j` is
entry `i` of column `j` (the `np.column_stack` layout). -/
def rowsOfCols (n : Nat) (cols : List (String × List ℚ)) : List (List ℚ) :=
  (List.range n).map (fun i => cols.map (fun c => c.2.getD i 0))

/-- Modelled from the spec: constructing a columnar element from named
columns with the chosen storage backend. -/
def constructCol (kdims vdims : List String) (cols : List (String × List ℚ)) :
    Datatype → ColumnsEl
  | .dictionary => ⟨kdims, vdims, .dictionary cols⟩
  | .array => ⟨kdims, vdims, .array (rowsOfCols (nRows cols) cols)⟩
  | .dataframe => ⟨kdims, vdims, .dataframe cols⟩

/-- Modelled from the spec: fallback resolution picks the first backend
of the allowed `datatype` list (the element's default list starts with
the array interface). -/
def resolveDatatype (allowed : List Datatype) : Datatype :=
  allowed.headD .array

/-- The tabular data held by an element, read back as named columns
(`.columns()` in the tutorial); for array storage the column names come
from the element's dimensions, in order. -/
def ColumnsEl.columns (e : ColumnsEl) : List (String × List ℚ) :=
  match e.data with
  | .dictionary cols => cols
  | .dataframe cols => cols
  | .array rows =>
      (e.kdims ++ e.vdims).enum.map (fun p => (p.2, rows.map (fun r => r.getD p.1 0)))

/-! ### Cell-kind readings for claim C3 -/

/-- Claim C3's kind (a), "declarative sample-data loading", read
permissively: every statement of the cell is an import, an IPython
magic, or an assignment (data being bound to names). -/
def cellKindA : Cell → Bool
  | .code ss =>
      ss.all (fun s =>
        match s with
        | .imp _ _ => true
        | .impFrom _ _ _ => true
        | .magic _ => true
        | .assign _ _ => true
        | _ => false)
  | .markdown => false

/-- Claim C3's kind (b), "a call into the external library's public
API", read permissively: every statement of the cell is an
expression/print statement, an assignment, or a magic — statement forms
that only evaluate expressions. -/
def cellKindB : Cell → Bool
  | .code ss =>
      ss.all (fun s =>
        match s with
        | .exprStmt _ => true
        | .printStmt _ => true
        | .magic _ => true
        | .assign _ _ => true
        | _ => false)
  | .markdown => false

/-- Claim C3's kind (c): a prose/markdown documentation cell. -/
def cellKindC : Cell → Bool
  | .markdown => true
  | .code _ => false

/-- The statement forms the amended claim C3 permits in a code cell:
imports, magics, assignments, expression/print statements, and function
definitions (the latter are additionally required to be handed to the
external library, checked by `corpusDefsHandedToExternal`). -/
def stmtAllowedForm : PyStmt → Bool
  | .imp _ _ => true
  | .impFrom _ _ _ => true
  | .magic _ => true
  | .assign _ _ => true
  | .exprStmt _ => true
  | .printStmt _ => true
  | .fundecl _ _ _ => true
  | _ => false

/-- Every cell of the corpus is markdown or consists solely of allowed
statement forms. -/
def corpusCellsWellFormed : Bool :=
  corpus.all (fun nb =>
    nb.cells.all (fun c =>
      match c with
      | .markdown => true
      | .code ss => ss.all stmtAllowedForm))

/-! ### Helper lemmas -/

/-- When all positions are in range, numpy fancy indexing selects exactly
the rows at the given positions. -/
theorem npTake_eq (points : List (ℚ × ℚ)) (index : List Nat)
    (h : ∀ i ∈ index, i < points.length) :
    npTake points index = some (index.map (fun i => points.getD i (0, 0))) := by
  induction index with
  | nil => rfl
  | cons i is ih =>
      have hi : i < points.length := h i (by simp)
      have his : ∀ j ∈ is, j < points.length := fun j hj => h j (by simp [hj])
      simp only [npTake, List.mapM_cons] at *
      rw [List.getElem?_eq_getElem hi]
      simp only [Option.pure_def, Option.bind_eq_bind, Option.some_bind]
      rw [ih his]
      simp [List.getD_eq_getElem?_getD, List.getElem?_eq_getElem hi]

/-- Every binding of a Python-dict insertion comes from the original
dictionary or is the inserted pair. -/
theorem mem_updateOrAppend {α : Type} (m : List (String × α)) (k : String) (v : α)
    (kv : String × α) (h : kv ∈ updateOrAppend m k v) : kv ∈ m ∨ kv = (k, v) := by
  induction m with
  | nil => simpa [updateOrAppend] using h
  | cons p rest ih =>
      obtain ⟨k2, v2⟩ := p
      simp only [updateOrAppend] at h
      by_cases hk : k2 == k
      · rw [if_pos hk] at h
        rcases List.mem_cons.mp h with h1 | h1
        · right
          have hkk : k2 = k := by simpa using hk
          simp [h1, hkk]
        · exact Or.inl (List.mem_cons_of_mem _ h1)
      · rw [if_neg hk] at h
        rcases List.mem_cons.mp h with h1 | h1
        · exact Or.inl (by simp [h1])
        · rcases ih h1 with h2 | h2
          · exact Or.inl (List.mem_cons_of_mem _ h2)
          · exact Or.inr h2

/-- Every binding produced by folding Python-dict insertions comes from
the accumulator or from the inserted pair sequence. -/
theorem foldl_insert_mem {α : Type} (ps : List (String × α)) :
    ∀ (acc : List (String × α)) (kv : String × α),
      kv ∈ ps.foldl (fun acc p => updateOrAppend acc p.1 p.2) acc → kv ∈ acc ∨ kv ∈ ps := by
  induction ps with
  | nil => intro acc kv hacc; exact Or.inl (by simpa using hacc)
  | cons p rest ih =>
      intro acc kv hacc
      simp only [List.foldl_cons] at hacc
      rcases ih (updateOrAppend acc p.1 p.2) kv hacc with h1 | h1
      · rcases mem_updateOrAppend _ _ _ _ h1 with h2 | h2
        · exact Or.inl h2
        · exact Or.inr (by simp [h2])
      · exact Or.inr (List.mem_cons_of_mem _ h1)

/-- Every binding of a Python dict comprehension comes from its pair
sequence. -/
theorem mem_dictOfPairs {α : Type} (ps : List (String × α)) (kv : String × α)
    (h : kv ∈ dictOfPairs ps) : kv ∈ ps := by
  rcases foldl_insert_mem ps [] kv h with h1 | h1
  · simp at h1
  · exact h1

/-- Zipping four maps over one list aligns entries position by position. -/
theorem zip4_map {α β γ δ ε : Type} (l : List ε)
    (f : ε → α) (g : ε → β) (h : ε → γ) (r : ε → δ) :
    zip4 (l.map f) (l.map g) (l.map h) (l.map r) =
      l.map (fun x => (f x, g x, h x, r x)) := by
  induction l with
  | nil => rfl
  | cons x xs ih => simp [zip4, ih]

/-- `county_polys` in closed form: one aligned binding per filtered
county. -/
theorem county_polys_eq (counties : List (String × County)) (unemployment : String → ℚ) :
    county_polys counties unemployment =
      dictOfPairs ((txCounties counties).map
        (fun p => (p.2.name, Polygons.mk p.2.lons p.2.lats (unemployment p.1) ["Unemployment"]))) := by
  unfold county_polys county_names county_xs county_ys county_rates
  simp only [zip4_map, List.map_map]
  rfl

/-- Reading every position of a list via `getD` reproduces the list. -/
theorem range_map_getD (l : List ℚ) :
    (List.range l.length).map (fun i => l.getD i 0) = l := by
  apply List.ext_getElem
  · simp
  · intro i h1 h2
    simp [List.getD_eq_getElem?_getD, List.getElem?_eq_getElem h2]

/-- Round trip through the N-by-D array storage: when the column names
are the element's dimensions and the columns are rectangular, reading the
columns back from the array reproduces them. -/
theorem columns_constructCol_array (kdims vdims : List String)
    (cols : List (String × List ℚ))
    (hnames : cols.map Prod.fst = kdims ++ vdims)
    (hrect : ∀ c ∈ cols, c.2.length = nRows cols) :
    (constructCol kdims vdims cols .array).columns = cols := by
  unfold constructCol ColumnsEl.columns
  simp only [← hnames]
  apply List.ext_getElem
  · simp
  · intro j h1 h2
    have hj : j < cols.length := by simpa using h2
    simp only [List.getElem_map, List.getElem_enum]
    have hsnd : (rowsOfCols (nRows cols) cols).map (fun r => r.getD j 0) = cols[j].2 := by
      unfold rowsOfCols
      rw [List.map_map]
      have hmem : cols[j] ∈ cols := List.getElem_mem hj
      have hlen : cols[j].2.length = nRows cols := hrect _ hmem
      have hcong : (List.range (nRows cols)).map
            ((fun r => r.getD j 0) ∘ fun i => cols.map fun c => c.2.getD i 0) =
          (List.range (nRows cols)).map (fun i => cols[j].2.getD i 0) := by
        apply List.map_congr_left
        intro i _
        simp [Function.comp, List.getD_eq_getElem?_getD, List.getElem?_map,
          List.getElem?_eq_getElem hj]
      rw [hcong, ← hlen]
      exact range_map_getD _
    rw [hsnd, Prod.mk.eta]

/-! ### Claim theorems -/

/-- Claim C1 (modelled from the spec; the implementing library code is
not part of this repository's sources): constructing a columnar element
from the same underlying named columns with any two of the three storage
backends — explicitly chosen or picked by fallback resolution — yields
elements with the same key and value dimensions and the same tabular
data, differing only in the backing storage. -/
theorem columns_backends_interchangeable (kdims vdims : List String)
    (cols : List (String × List ℚ))
    (hnames : cols.map Prod.fst = kdims ++ vdims)
    (hrect : cols.all (fun c => c.2.length == nRows cols) = true)
    (dt1 dt2 : Datatype) :
    (constructCol kdims vdims cols dt1).kdims = (constructCol kdims vdims cols dt2).kdims ∧
    (constructCol kdims vdims cols dt1).vdims = (constructCol kdims vdims cols dt2).vdims ∧
    (constructCol kdims vdims cols dt1).columns = cols ∧
    (constructCol kdims vdims cols dt2).columns = cols ∧
    constructCol kdims vdims cols (resolveDatatype [dt1]) = constructCol kdims vdims cols dt1 := by
  have hrect2 : ∀ c ∈ cols, c.2.length = nRows cols := by
    intro c hc
    have := List.all_eq_true.mp hrect c hc
    simpa using this
  have hc : ∀ dt : Datatype, (constructCol kdims vdims cols dt).columns = cols := by
    intro dt
    cases dt with
    | dictionary => rfl
    | array => exact columns_constructCol_array kdims vdims cols hnames hrect2
    | dataframe => rfl
  refine ⟨?_, ?_, hc dt1, hc dt2, rfl⟩ <;> cases dt1 <;> cases dt2 <;> rfl

/-- Witness for C1 at concrete columns x = [0, 1], y = [5, 7], comparing
the array backend against the dictionary backend. -/
theorem columns_backends_interchangeable_witness :
    (([("x", [0, 1]), ("y", [5, 7])] : List (String × List ℚ)).map Prod.fst = ["x"] ++ ["y"] ∧
     ([("x", [0, 1]), ("y", [5, 7])] : List (String × List ℚ)).all
       (fun c => c.2.length == nRows [("x", [0, 1]), ("y", [5, 7])]) = true) ∧
    ((constructCol ["x"] ["y"] [("x", [0, 1]), ("y", [5, 7])] .array).kdims =
       (constructCol ["x"] ["y"] [("x", [0, 1]), ("y", [5, 7])] .dictionary).kdims ∧
     (constructCol ["x"] ["y"] [("x", [0, 1]), ("y", [5, 7])] .array).vdims =
       (constructCol ["x"] ["y"] [("x", [0, 1]), ("y", [5, 7])] .dictionary).vdims ∧
     (constructCol ["x"] ["y"] [("x", [0, 1]), ("y", [5, 7])] .array).columns =
       [("x", [0, 1]), ("y", [5, 7])] ∧
     (constructCol ["x"] ["y"] [("x", [0, 1]), ("y", [5, 7])] .dictionary).columns =
       [("x", [0, 1]), ("y", [5, 7])] ∧
     constructCol ["x"] ["y"] [("x", [0, 1]), ("y", [5, 7])] (resolveDatatype [.array]) =
       constructCol ["x"] ["y"] [("x", [0, 1]), ("y", [5, 7])] .array) :=
  ⟨⟨by decide, by decide⟩,
   columns_backends_interchangeable ["x"] ["y"] [("x", [0, 1]), ("y", [5, 7])]
     (by decide) (by decide) .array .dictionary⟩

/-- Claim C2 counterexample: the repository itself defines conditional
branching.  The cell at position 4 of the deployment notebook defines
`selected_info`, whose body contains an `if` statement, so the corpus
contains conditional branching and per-cell execution is not uniformly
straight-line code against the external API. -/
theorem notebooks_define_conditional_branching :
    deployingBokehApps.cells.getD 3 .markdown = .code nb1cell4 ∧
    stmtsHaveIf nb1cell4 = true ∧ corpusHasIf = true :=
  ⟨rfl, rfl, rfl⟩

/-- Claim C2 (amended): top-level cell execution is straight-line — no
top-level statement of any code cell is a conditional, loop, or
`try`/`except` statement; every `if` statement in the repository occurs
inside the body of a locally defined callback function, and the
repository contains no loop or `try` statement at all. -/
theorem top_level_execution_straightline :
    corpusTopLevelStraight = true ∧ corpusHasIfOutsideDefs = false ∧
    corpusHasLoop = false ∧ corpusHasTry = false :=
  ⟨rfl, rfl, rfl, rfl⟩

/-- Claim C3 counterexample: the cell at position 57 of the deployment
notebook is of none of the claim's three kinds — it is not declarative
data loading (kind a), not a cell of pure expression/assignment API
calls (kind b), and not markdown (kind c), because it defines the
functions `sine`, `modify_doc`, `animate_update`, `slider_update` and
`animate`, i.e. program logic of its own. -/
theorem modify_doc_cell_fits_no_kind :
    deployingBokehApps.cells.getD 56 .markdown = .code nb1cell57 ∧
    cellKindA (.code nb1cell57) = false ∧
    cellKindB (.code nb1cell57) = false ∧
    cellKindC (.code nb1cell57) = false ∧
    stmtsFundeclNames nb1cell57 =
      ["sine", "modify_doc", "animate_update", "slider_update", "animate"] :=
  ⟨rfl, rfl, rfl, rfl, rfl⟩

/-- Claim C3 (amended): every cell is markdown prose or a code cell made
of imports, IPython magics, assignments, expression/print statements and
function definitions; and every function the notebooks define is handed
to the external library — its name is passed as an argument of calls
rooted only at external-library bindings and it is never invoked
directly by repository code, so no cell implements standalone program
logic running independently of the external library. -/
theorem cells_markdown_or_library_driven :
    corpusCellsWellFormed = true ∧ corpusDefsHandedToExternal = true :=
  ⟨rfl, rfl⟩

/-- Claim C5: the only statements of the corpus that consume external
input are the two `bokeh.sampledata` imports (the bundled
geographic/economic sample dataset) and the single `pd.read_csv` fetch
of one remote CSV over HTTP; no other file, network, or command-line
input operation occurs in any cell. -/
theorem notebook_inputs_sampledata_and_one_csv :
    corpusInputStmts =
      [.assign (.name "macro_df")
         (.call (.attr (.name "pd") "read_csv")
           [.strLit "http://ioam.github.com/holoviews/Tutorials/macro.csv", .strLit "\t"]),
       .impFrom "bokeh.sampledata.us_counties" ["data"] (some "counties"),
       .impFrom "bokeh.sampledata.unemployment" ["data"] (some "unemployment")] :=
  rfl

/-- Claim C6: every module the notebooks import belongs to the external
libraries (numpy, pandas, holoviews, bokeh, tornado); the only functions
the repository defines are the plotting/UI callbacks listed — none is a
concurrency or scheduling primitive; and every server/scheduling/
callback-registration method call is made on an object rooted at an
external-library binding, so all such mechanisms are implemented by the
external libraries. -/
theorem concurrency_mechanisms_all_external :
    corpusImportedModules.all isExternalModule = true ∧
    corpusFundeclNames = ["selected_info", "sine", "show_callback", "sine", "sine",
      "modify_doc", "animate_update", "slider_update", "animate"] ∧
    corpusFundeclNames.all (fun f => !concurrencyPrimitiveNames.contains f) = true ∧
    corpusExprAny schedCallOutsideExternal = false :=
  ⟨rfl, rfl, rfl, rfl⟩

/-- Claim C7: no cell of any notebook contains a `try`/`except`
statement, a `raise` statement, or any loop statement (so no failure is
caught, transformed, or retried by repository code — failures surface as
the external library and runtime report them). -/
theorem no_error_handling_defined :
    corpusHasTry = false ∧ corpusHasRaise = false ∧ corpusHasLoop = false :=
  ⟨rfl, rfl, rfl⟩

/-- Claim C8: for every index list whose positions are in range,
`selected_info` returns a clone holding exactly the selected rows,
labelled with the column means when the index list is non-empty and with
`'No selection'` (and an empty selection array) when it is empty; on the
empty index list it is total for every points array and never raises. -/
theorem selected_info_spec (points : List (ℚ × ℚ)) (index : List Nat)
    (h : index.all (fun i => decide (i < points.length)) = true) :
    selected_info points index =
      some ⟨index.map (fun i => points.getD i (0, 0)),
            if index.isEmpty then SelLabel.noSelection
            else SelLabel.meanXY
              (qmean ((index.map (fun i => points.getD i (0, 0))).map Prod.fst))
              (qmean ((index.map (fun i => points.getD i (0, 0))).map Prod.snd))⟩ ∧
    selected_info points [] = some ⟨[], SelLabel.noSelection⟩ := by
  have h2 : ∀ i ∈ index, i < points.length := by
    intro i hi
    have := List.all_eq_true.mp h i hi
    simpa using this
  constructor
  · unfold selected_info
    rw [npTake_eq points index h2]
  · rfl

/-- Witness for C8 at three concrete points with selection `[0, 2]` (and,
inside the applied theorem, the empty selection on the same points). -/
theorem selected_info_spec_witness :
    ([0, 2].all (fun i => decide (i < ([(1, 2), (3, 4), (5, 6)] : List (ℚ × ℚ)).length)) = true) ∧
    selected_info [(1, 2), (3, 4), (5, 6)] [0, 2] =
      some ⟨[(1, 2), (5, 6)], SelLabel.meanXY 3 4⟩ ∧
    selected_info [(1, 2), (3, 4), (5, 6)] [] = some ⟨[], SelLabel.noSelection⟩ :=
  ⟨by decide,
   ((selected_info_spec [(1, 2), (3, 4), (5, 6)] [0, 2] (by decide)).1).trans (by norm_num [qmean]),
   (selected_info_spec [(1, 2), (3, 4), (5, 6)] [0, 2] (by decide)).2⟩

/-- Claim C9: `animate_update` preserves the slider invariant
`start ≤ value ≤ end`: each call either advances the value by `0.2`
(when that does not exceed `end`) or wraps it back to `start`; the
widget starts at `value = start`, which lies inside the interval. -/
theorem animate_update_invariant (s : SliderState)
    (h : s.start ≤ s.value ∧ s.value ≤ s.endVal) :
    (s.start ≤ (animate_update s).value ∧ (animate_update s).value ≤ s.endVal) ∧
    ((animate_update s).value = s.value + 2/10 ∨ (animate_update s).value = s.start) ∧
    (animate_update s).start = s.start ∧ (animate_update s).endVal = s.endVal ∧
    (mkSlider s.start s.endVal).value = s.start ∧
    s.start ≤ (mkSlider s.start s.endVal).value ∧
    (mkSlider s.start s.endVal).value ≤ (mkSlider s.start s.endVal).endVal := by
  obtain ⟨h1, h2⟩ := h
  have hval : (animate_update s).value =
      if s.value + 2/10 > s.endVal then s.start else s.value + 2/10 := rfl
  by_cases hc : s.value + 2/10 > s.endVal
  · rw [if_pos hc] at hval
    exact ⟨⟨by rw [hval], by rw [hval]; linarith⟩, Or.inr hval, rfl, rfl, rfl,
      le_refl _, le_trans h1 h2⟩
  · rw [if_neg hc] at hval
    push_neg at hc
    exact ⟨⟨by rw [hval]; linarith, by rw [hval]; linarith⟩, Or.inl hval, rfl, rfl, rfl,
      le_refl _, le_trans h1 h2⟩

/-- Witness for C9 at the slider `start = 0`, `end = 6.28`,
`value = 6.2` (the wrap-around step). -/
theorem animate_update_invariant_witness :
    ((⟨0, 628/100, 62/10⟩ : SliderState).start ≤ (⟨0, 628/100, 62/10⟩ : SliderState).value ∧
     (⟨0, 628/100, 62/10⟩ : SliderState).value ≤ (⟨0, 628/100, 62/10⟩ : SliderState).endVal) ∧
    (((⟨0, 628/100, 62/10⟩ : SliderState).start ≤ (animate_update ⟨0, 628/100, 62/10⟩).value ∧
      (animate_update ⟨0, 628/100, 62/10⟩).value ≤ (⟨0, 628/100, 62/10⟩ : SliderState).endVal) ∧
     ((animate_update ⟨0, 628/100, 62/10⟩).value = (⟨0, 628/100, 62/10⟩ : SliderState).value + 2/10 ∨
      (animate_update ⟨0, 628/100, 62/10⟩).value = (⟨0, 628/100, 62/10⟩ : SliderState).start) ∧
     (animate_update ⟨0, 628/100, 62/10⟩).start = (⟨0, 628/100, 62/10⟩ : SliderState).start ∧
     (animate_update ⟨0, 628/100, 62/10⟩).endVal = (⟨0, 628/100, 62/10⟩ : SliderState).endVal ∧
     (mkSlider (⟨0, 628/100, 62/10⟩ : SliderState).start (⟨0, 628/100, 62/10⟩ : SliderState).endVal).value =
       (⟨0, 628/100, 62/10⟩ : SliderState).start ∧
     (⟨0, 628/100, 62/10⟩ : SliderState).start ≤
       (mkSlider (⟨0, 628/100, 62/10⟩ : SliderState).start (⟨0, 628/100, 62/10⟩ : SliderState).endVal).value ∧
     (mkSlider (⟨0, 628/100, 62/10⟩ : SliderState).start (⟨0, 628/100, 62/10⟩ : SliderState).endVal).value ≤
       (mkSlider (⟨0, 628/100, 62/10⟩ : SliderState).start (⟨0, 628/100, 62/10⟩ : SliderState).endVal).endVal) :=
  ⟨⟨by norm_num, by norm_num⟩, animate_update_invariant ⟨0, 628/100, 62/10⟩ ⟨by norm_num, by norm_num⟩⟩

/-- Claim C10: every entry of `county_polys` (equivalently, every layer
of the `NdOverlay` choropleth) is built from a county record with state
`'tx'`, carries that county's name and coordinate lists, and its
`'Unemployment'` level equals the unemployment rate recorded for that
same county's identifier — name, coordinates and rate all originate from
the same entry of the filtered dictionary. -/
theorem county_polys_aligned (counties : List (String × County))
    (unemployment : String → ℚ) (nmp : String × Polygons)
    (hmem : nmp ∈ (choropleth counties unemployment).items) :
    ∃ c ∈ counties, c.2.state = "tx" ∧ nmp.1 = c.2.name ∧
      nmp.2.xs = c.2.lons ∧ nmp.2.ys = c.2.lats ∧
      nmp.2.level = unemployment c.1 ∧ nmp.2.vdims = ["Unemployment"] := by
  have h1 : nmp ∈ county_polys counties unemployment := hmem
  rw [county_polys_eq] at h1
  have h2 := mem_dictOfPairs _ _ h1
  obtain ⟨p, hp, hpe⟩ := List.mem_map.mp h2
  have hpc : p ∈ counties ∧ (p.2.state == "tx") = true := by
    simpa [txCounties] using List.mem_filter.mp hp
  refine ⟨p, hpc.1, by simpa using hpc.2, ?_, ?_, ?_, ?_, ?_⟩ <;>
    simp [← hpe]

/-- Witness for C10 at a concrete two-county dictionary (one texas
county, one non-texas county). -/
theorem county_polys_aligned_witness :
    (("Anderson", (⟨[1], [2], 3, ["Unemployment"]⟩ : Polygons)) ∈
       (choropleth
         [("48001", ⟨"Anderson", "tx", [1], [2]⟩), ("06001", ⟨"Alameda", "ca", [9], [9]⟩)]
         (fun _ => 3)).items) ∧
    ∃ c ∈ [("48001", (⟨"Anderson", "tx", [1], [2]⟩ : County)),
           ("06001", ⟨"Alameda", "ca", [9], [9]⟩)],
      c.2.state = "tx" ∧
      ("Anderson", (⟨[1], [2], 3, ["Unemployment"]⟩ : Polygons)).1 = c.2.name ∧
      ("Anderson", (⟨[1], [2], 3, ["Unemployment"]⟩ : Polygons)).2.xs = c.2.lons ∧
      ("Anderson", (⟨[1], [2], 3, ["Unemployment"]⟩ : Polygons)).2.ys = c.2.lats ∧
      ("Anderson", (⟨[1], [2], 3, ["Unemployment"]⟩ : Polygons)).2.level = (fun _ => (3 : ℚ)) c.1 ∧
      ("Anderson", (⟨[1], [2], 3, ["Unemployment"]⟩ : Polygons)).2.vdims = ["Unemployment"] :=
  ⟨by decide,
   county_polys_aligned
     [("48001", ⟨"Anderson", "tx", [1], [2]⟩), ("06001", ⟨"Alameda", "ca", [9], [9]⟩)]
     (fun _ => 3) ("Anderson", ⟨[1], [2], 3, ["Unemployment"]⟩) (by decide)⟩
